import Mathlib

/-!
Shallow embedding of the hivematrix-archive service (Flask + SQLAlchemy) and
proofs about the claims of its specification.

The embedding follows the Python source:
  * `app/scheduler.py`  — `run_scheduled_snapshots`, the bulk snapshot runner;
  * `app/routes.py`     — the snapshot ingestion, retrieval, search, bulk-create
                          and scheduler-config HTTP handlers;
  * `models.py`         — the four SQLAlchemy models.

External collaborators (the Codex directory service and the Ledger billing
service) are modelled as oracles supplied to the runner; each oracle call either
returns an HTTP status plus body or raises (`Except.error`), exactly the two
behaviours `call_service` can exhibit.  Database commits are modelled as an
explicit trace: every `db.session.commit()` of the job row appends the job
record as committed at that point.  Timestamps (`datetime.now().isoformat()`)
are an opaque string parameter `now`; UUIDs are a parameter `job_id`.
-/

namespace Archive

/-- A company record returned by the Codex directory service.  The scheduler
only reads `company.get('account_number')`, which may be absent. -/
structure Company where
  account_number : Option String
deriving Repr, DecidableEq

/-- Python truthiness of `account_number` (`if not account_number: continue`):
`None` and the empty string are both falsy. -/
def pyTruthyStr : Option String → Bool
  | none => false
  | some s => s ≠ ""

/-- Python truthiness of the `account_numbers` argument
(`if account_numbers` / `json.dumps(account_numbers) if account_numbers else None`):
`None` and the empty list are both falsy. -/
def pyTruthyList : Option (List String) → Bool
  | none => false
  | some l => l ≠ []

/-- Outcome of one `call_service('ledger', '/api/bill/accept', ...)` call:
either an HTTP response (status code and body text) or a raised exception. -/
inductive LedgerOutcome where
  | resp (status : Nat) (text : String)
  | exc (msg : String)
deriving Repr, DecidableEq

/-- `scheduler.py` lines 91-95: status 201 (created) and status 409 (already
archived) both count as success; every other response or a raised exception is
a per-company failure. -/
def ledgerSuccess : LedgerOutcome → Bool
  | .resp 201 _ => true
  | .resp 409 _ => true
  | _ => false

/-- The text recorded in the error list for a failing outcome:
`response.text` for a non-success response, `str(e)` for an exception. -/
def ledgerDetail : LedgerOutcome → String
  | .resp _ text => text
  | .exc msg => msg

/-- The two external services consumed by the runner.  `codexCompany acc`
models `call_service('codex', '/api/company/' + acc)`; `codexAll` models
`call_service('codex', '/api/companies')`; `ledger i` models the
`/api/bill/accept` call made while processing the company at position `i`
of the resolved company list.  `Except.error` is a raised exception. -/
structure Env where
  codexCompany : String → Except String (Nat × Company)
  codexAll : Except String (Nat × List Company)
  ledger : Nat → LedgerOutcome

/-- The structured output stored on a finalized job
(`json.dumps({'success_count': ..., 'failed_count': ..., 'errors': ...})`). -/
structure JobOutput where
  success_count : Nat
  failed_count : Nat
  errors : List String
deriving Repr, DecidableEq

/-- The `snapshot_jobs` row of `models.py` (class `SnapshotJob`).
`target_account_numbers` stores the JSON-encoded list (encoding is injective,
so the embedding keeps the list itself); `output` stores the decoded
structured output for the same reason. -/
structure SnapshotJob where
  id : String
  job_type : String
  status : String
  target_year : Int
  target_month : Int
  target_account_numbers : Option (List String)
  total_companies : Nat
  completed_companies : Nat
  failed_companies : Nat
  started_at : Option String
  completed_at : Option String
  output : Option JobOutput
  error : Option String
  success : Option Bool
  triggered_by : Option String
deriving Repr, DecidableEq

/-- The job row created and committed at the top of `run_scheduled_snapshots`
(lines 28-40).  Column defaults of `models.py` give the three counters 0. -/
def initialJob (job_id : String) (year month : Int)
    (account_numbers : Option (List String)) (now : String) : SnapshotJob :=
  { id := job_id
    job_type := "scheduled"
    status := "running"
    target_year := year
    target_month := month
    target_account_numbers :=
      if pyTruthyList account_numbers then account_numbers else none
    total_companies := 0
    completed_companies := 0
    failed_companies := 0
    started_at := some now
    completed_at := none
    output := none
    error := none
    success := none
    triggered_by := some "scheduler" }

/-- Explicit-list company resolution (lines 46-50): fetch each account
individually, keep the bodies of the 200 responses, silently drop the rest.
Also returns the list of directory paths called, in order.  A raised
exception propagates (short-circuiting the remaining calls). -/
def fetchEach (env : Env) : List String → Except String (List Company) × List String
  | [] => (.ok [], [])
  | acc :: rest =>
    match env.codexCompany acc with
    | .error e => (.error e, ["/api/company/" ++ acc])
    | .ok (status, body) =>
      match fetchEach env rest with
      | (.error e, calls) => (.error e, ("/api/company/" ++ acc) :: calls)
      | (.ok cs, calls) =>
        (.ok (if status == 200 then body :: cs else cs),
         ("/api/company/" ++ acc) :: calls)

/-- All-companies resolution (lines 52-56): one full-list fetch; a non-200
status raises, which aborts the whole job. -/
def fetchAll (env : Env) : Except String (List Company) × List String :=
  match env.codexAll with
  | .error e => (.error e, ["/api/companies"])
  | .ok (status, cs) =>
    if status != 200 then
      (.error ("Failed to fetch companies from Codex: " ++ toString status),
       ["/api/companies"])
    else
      (.ok cs, ["/api/companies"])

/-- Company-set resolution (lines 44-56).  `if account_numbers:` is Python
truthiness, so `None` and the empty list both take the all-companies branch. -/
def resolveCompanies (env : Env) (account_numbers : Option (List String)) :
    Except String (List Company) × List String :=
  if pyTruthyList account_numbers then
    fetchEach env (account_numbers.getD [])
  else
    fetchAll env

/-- Result of the per-company loop (lines 71-106): final counters, the
accumulated error list, the billing-service calls made (account numbers, in
order), and the progress commits written inside the loop. -/
structure LoopOut where
  success_count : Nat
  failed_count : Nat
  errors : List String
  ledger_calls : List String
  commits : List SnapshotJob
deriving Repr, DecidableEq

/-- The per-company loop (lines 75-106).  A company whose `account_number` is
falsy is skipped by `continue` before the billing call and before the progress
commit; otherwise the billing outcome updates the counters and error list and
`job.completed_companies = success_count + failed_count` is committed. -/
def loopGo (env : Env) (base : SnapshotJob) :
    List Company → Nat → Nat → Nat → LoopOut
  | [], _, s, f => ⟨s, f, [], [], []⟩
  | c :: rest, i, s, f =>
    if pyTruthyStr c.account_number then
      let acct := c.account_number.getD ""
      let o := env.ledger i
      let s' := if ledgerSuccess o then s + 1 else s
      let f' := if ledgerSuccess o then f else f + 1
      let es := if ledgerSuccess o then [] else [acct ++ ": " ++ ledgerDetail o]
      let out := loopGo env base rest (i + 1) s' f'
      ⟨out.success_count, out.failed_count, es ++ out.errors,
       acct :: out.ledger_calls,
       { base with completed_companies := s' + f' } :: out.commits⟩
    else
      loopGo env base rest (i + 1) s f

/-- Observable result of one run: the trace of committed job states (in commit
order), the returned boolean and message (`return job_id, ok, message`), and
the external calls made. -/
structure RunOut where
  commits : List SnapshotJob
  ok : Bool
  message : String
  codex_calls : List String
  ledger_calls : List String
deriving Repr, DecidableEq

/-- The job as committed by the `except` handler (lines 131-137): status
`failed`, completion timestamp, `success = False`, exception text in `error`;
every other column keeps its value. -/
def failedJob (j : SnapshotJob) (e now : String) : SnapshotJob :=
  { j with
    status := "failed"
    completed_at := some now
    success := some false
    error := some e }

/-- The job as committed by the empty-company-set branch (lines 58-64). -/
def emptyJob (j : SnapshotJob) (now : String) : SnapshotJob :=
  { j with
    status := "completed"
    completed_at := some now
    total_companies := 0
    completed_companies := 0
    success := some true }

/-- The job as committed at line 68, after `job.total_companies = len(companies)`. -/
def baseJob (j : SnapshotJob) (n : Nat) : SnapshotJob :=
  { j with total_companies := n }

/-- The job as finalized by lines 109-117: status `completed`,
`success = (failed_count == 0)`, structured output, completion timestamp.
At this point `job.completed_companies` equals the final
`success_count + failed_count` (its value after the last loop iteration, or 0
when every company was skipped). -/
def finalJob (j : SnapshotJob) (out : LoopOut) (now : String) : SnapshotJob :=
  { j with
    status := "completed"
    completed_at := some now
    completed_companies := out.success_count + out.failed_count
    success := some (out.failed_count == 0)
    output := some ⟨out.success_count, out.failed_count, out.errors⟩ }

/-- `run_scheduled_snapshots` of `app/scheduler.py` (lines 15-139).
The update of `ScheduledSnapshot.last_run_count` after finalization (lines
120-122) is followed by no commit in the source and is not part of any
persisted state of the run, so it is not modelled here. -/
def run_scheduled_snapshots (env : Env) (year month : Int)
    (account_numbers : Option (List String)) (job_id now : String) : RunOut :=
  let job0 := initialJob job_id year month account_numbers now
  let res := resolveCompanies env account_numbers
  match res.1 with
  | .error e =>
    ⟨[job0, failedJob job0 e now], false, "Scheduler error: " ++ e, res.2, []⟩
  | .ok companies =>
    if companies.isEmpty then
      ⟨[job0, emptyJob job0 now], true, "No companies to snapshot", res.2, []⟩
    else
      let base := baseJob job0 companies.length
      let out := loopGo env base companies 0 0 0
      if out.failed_count > 0 then
        ⟨[job0, base] ++ out.commits ++ [finalJob base out now], false,
         "Completed with " ++ toString out.success_count ++ " successes, " ++
           toString out.failed_count ++ " failures",
         res.2, out.ledger_calls⟩
      else
        ⟨[job0, base] ++ out.commits ++ [finalJob base out now], true,
         "Successfully created " ++ toString out.success_count ++ " snapshots",
         res.2, out.ledger_calls⟩

/-- The predicate the spec imposes on one persisted job state and the next:
the status is unchanged or moves from `running` to a terminal state, and the
three counters do not decrease. -/
def jobStep (a b : SnapshotJob) : Prop :=
  (a.status = b.status ∨
    (a.status = "running" ∧ (b.status = "completed" ∨ b.status = "failed"))) ∧
  a.total_companies ≤ b.total_companies ∧
  a.completed_companies ≤ b.completed_companies ∧
  a.failed_companies ≤ b.failed_companies

theorem loopGo_counts (env : Env) (base : SnapshotJob) :
    ∀ (cs : List Company) (i s f : Nat),
      (loopGo env base cs i s f).success_count + (loopGo env base cs i s f).failed_count =
        s + f + cs.countP (fun c => pyTruthyStr c.account_number)
  | [], i, s, f => by simp [loopGo]
  | c :: rest, i, s, f => by
    by_cases h : pyTruthyStr c.account_number
    · cases hls : ledgerSuccess (env.ledger i)
      · have ih := loopGo_counts env base rest (i + 1) s (f + 1)
        simp only [loopGo, h, hls, if_true, if_false, List.countP_cons]
        try simp [h]
        omega
      · have ih := loopGo_counts env base rest (i + 1) (s + 1) f
        simp only [loopGo, h, hls, if_true, if_false, List.countP_cons]
        try simp [h]
        omega
    · simp [loopGo, h, List.countP_cons, loopGo_counts env base rest (i + 1) s f]

theorem loopGo_errors_length (env : Env) (base : SnapshotJob) :
    ∀ (cs : List Company) (i s f : Nat),
      (loopGo env base cs i s f).errors.length + f =
        (loopGo env base cs i s f).failed_count
  | [], i, s, f => by simp [loopGo]
  | c :: rest, i, s, f => by
    by_cases h : pyTruthyStr c.account_number
    · cases hls : ledgerSuccess (env.ledger i)
      · have ih := loopGo_errors_length env base rest (i + 1) s (f + 1)
        simp only [loopGo, h, hls, if_true, if_false]
        try simp
        omega
      · have ih := loopGo_errors_length env base rest (i + 1) (s + 1) f
        simp only [loopGo, h, hls, if_true, if_false]
        try simp
        omega
    · simp [loopGo, h, loopGo_errors_length env base rest (i + 1) s f]

theorem loopGo_calls (env : Env) (base : SnapshotJob) :
    ∀ (cs : List Company) (i s f : Nat),
      (loopGo env base cs i s f).ledger_calls =
        cs.filterMap (fun c =>
          if pyTruthyStr c.account_number then some (c.account_number.getD "") else none)
  | [], i, s, f => by simp [loopGo]
  | c :: rest, i, s, f => by
    by_cases h : pyTruthyStr c.account_number
    · simp [loopGo, h, loopGo_calls env base rest (i + 1)]
    · simp [loopGo, h, loopGo_calls env base rest (i + 1) s f]

theorem loopGo_commits_shape (env : Env) (base : SnapshotJob) :
    ∀ (cs : List Company) (i s f : Nat),
      ∀ j ∈ (loopGo env base cs i s f).commits,
        j.status = base.status ∧ j.total_companies = base.total_companies ∧
          j.failed_companies = base.failed_companies
  | [], i, s, f => by simp [loopGo]
  | c :: rest, i, s, f => by
    by_cases h : pyTruthyStr c.account_number
    · simp only [loopGo, h, if_true]
      intro j hj
      rcases List.mem_cons.mp hj with hj | hj
      · subst hj; exact ⟨rfl, rfl, rfl⟩
      · exact loopGo_commits_shape env base rest (i + 1) _ _ j hj
    · simp only [loopGo, h, if_false]
      exact loopGo_commits_shape env base rest (i + 1) s f

theorem loopGo_chain (env : Env) (base : SnapshotJob) :
    ∀ (cs : List Company) (i s f : Nat) (g : SnapshotJob),
      jobStep { base with completed_companies :=
          (loopGo env base cs i s f).success_count +
            (loopGo env base cs i s f).failed_count } g →
      List.Chain' jobStep
        ({ base with completed_companies := s + f } :: ((loopGo env base cs i s f).commits ++ [g]))
  | [], i, s, f, g => by
    intro hg
    simp only [loopGo] at hg ⊢
    exact List.chain'_cons.mpr ⟨hg, List.chain'_singleton g⟩
  | c :: rest, i, s, f, g => by
    intro hg
    by_cases h : pyTruthyStr c.account_number
    · simp only [loopGo, h, if_true] at hg ⊢
      refine List.chain'_cons.mpr ⟨?_, ?_⟩
      · refine ⟨Or.inl rfl, le_refl _, ?_, le_refl _⟩
        cases hls : ledgerSuccess (env.ledger i) <;> simp [hls]
      · exact loopGo_chain env base rest (i + 1) _ _ g hg
    · simp only [loopGo, h, if_false] at hg ⊢
      exact loopGo_chain env base rest (i + 1) s f g hg

theorem failedJob_status (j : SnapshotJob) (e now : String) :
    (failedJob j e now).status = "failed" := rfl

theorem emptyJob_status (j : SnapshotJob) (now : String) :
    (emptyJob j now).status = "completed" := rfl

theorem finalJob_status (j : SnapshotJob) (out : LoopOut) (now : String) :
    (finalJob j out now).status = "completed" := rfl

theorem baseJob_status (j : SnapshotJob) (n : Nat) :
    (baseJob j n).status = j.status := rfl

theorem initialJob_status (job_id : String) (year month : Int)
    (accs : Option (List String)) (now : String) :
    (initialJob job_id year month accs now).status = "running" := rfl

/-- C2: every run's trace of persisted job states starts with status
`running`; every persisted state except the last has status `running`; the
last persisted state is terminal (`completed` or `failed`); and consecutive
persisted states change status only by a single `running` → `completed` or
`running` → `failed` transition while the counters `total_companies`,
`completed_companies` and `failed_companies` never decrease. -/
theorem job_lifecycle_invariant (env : Env) (year month : Int)
    (accs : Option (List String)) (job_id now : String) :
    (∃ j0 rest,
      (run_scheduled_snapshots env year month accs job_id now).commits = j0 :: rest ∧
        j0.status = "running") ∧
    (∀ j ∈ (run_scheduled_snapshots env year month accs job_id now).commits.dropLast,
      j.status = "running") ∧
    (∃ jl,
      (run_scheduled_snapshots env year month accs job_id now).commits.getLast? = some jl ∧
        (jl.status = "completed" ∨ jl.status = "failed")) ∧
    List.Chain' jobStep (run_scheduled_snapshots env year month accs job_id now).commits := by
  rcases hres : (resolveCompanies env accs).1 with e | cs
  · have hrun : (run_scheduled_snapshots env year month accs job_id now).commits =
        [initialJob job_id year month accs now,
         failedJob (initialJob job_id year month accs now) e now] := by
      simp only [run_scheduled_snapshots]
      rw [hres]
    rw [hrun]
    refine ⟨⟨_, _, rfl, rfl⟩, ?_, ⟨_, rfl, Or.inr rfl⟩, ?_⟩
    · intro j hj
      simp only [List.dropLast] at hj
      simp at hj
      rw [hj]
      rfl
    · exact List.chain'_cons.mpr
        ⟨⟨Or.inr ⟨rfl, Or.inr rfl⟩, le_refl _, le_refl _, le_refl _⟩,
         List.chain'_singleton _⟩
  · by_cases hemp : cs.isEmpty
    · have hrun : (run_scheduled_snapshots env year month accs job_id now).commits =
          [initialJob job_id year month accs now,
           emptyJob (initialJob job_id year month accs now) now] := by
        simp only [run_scheduled_snapshots]
        rw [hres]
        simp [hemp]
      rw [hrun]
      refine ⟨⟨_, _, rfl, rfl⟩, ?_, ⟨_, rfl, Or.inl rfl⟩, ?_⟩
      · intro j hj
        simp only [List.dropLast] at hj
        simp at hj
        rw [hj]
        rfl
      · exact List.chain'_cons.mpr
          ⟨⟨Or.inr ⟨rfl, Or.inl rfl⟩, le_refl _, le_refl _, le_refl _⟩,
           List.chain'_singleton _⟩
    · have hrun : (run_scheduled_snapshots env year month accs job_id now).commits =
          [initialJob job_id year month accs now,
           baseJob (initialJob job_id year month accs now) cs.length] ++
            (loopGo env (baseJob (initialJob job_id year month accs now) cs.length)
              cs 0 0 0).commits ++
            [finalJob (baseJob (initialJob job_id year month accs now) cs.length)
              (loopGo env (baseJob (initialJob job_id year month accs now) cs.length)
                cs 0 0 0) now] := by
        simp only [run_scheduled_snapshots]
        rw [hres]
        simp only [hemp, Bool.false_eq_true, if_false]
        by_cases hf : (loopGo env
            (baseJob (initialJob job_id year month accs now) cs.length)
            cs 0 0 0).failed_count > 0 <;> simp [hf]
      rw [hrun]
      refine ⟨⟨_, _, rfl, rfl⟩, ?_, ?_, ?_⟩
      · intro j hj
        rw [List.dropLast_concat] at hj
        rcases List.mem_append.mp hj with hj | hj
        · rcases List.mem_cons.mp hj with hj | hj
          · rw [hj]; rfl
          · simp at hj
            rw [hj]
            rfl
        · exact (loopGo_commits_shape env _ cs 0 0 0 j hj).1
      · exact ⟨_, List.getLast?_concat _, Or.inl rfl⟩
      · rw [List.append_assoc]
        refine List.chain'_cons.mpr ⟨⟨Or.inl rfl, by simp [initialJob, baseJob], le_refl _, le_refl _⟩, ?_⟩
        have hstep : jobStep
            { baseJob (initialJob job_id year month accs now) cs.length with
              completed_companies :=
                (loopGo env (baseJob (initialJob job_id year month accs now) cs.length)
                  cs 0 0 0).success_count +
                (loopGo env (baseJob (initialJob job_id year month accs now) cs.length)
                  cs 0 0 0).failed_count }
            (finalJob (baseJob (initialJob job_id year month accs now) cs.length)
              (loopGo env (baseJob (initialJob job_id year month accs now) cs.length)
                cs 0 0 0) now) :=
          ⟨Or.inr ⟨rfl, Or.inl rfl⟩, le_refl _, le_refl _, le_refl _⟩
        have hchain := loopGo_chain env
          (baseJob (initialJob job_id year month accs now) cs.length) cs 0 0 0
          (finalJob (baseJob (initialJob job_id year month accs now) cs.length)
            (loopGo env (baseJob (initialJob job_id year month accs now) cs.length)
              cs 0 0 0) now) hstep
        have hzero : ({ baseJob (initialJob job_id year month accs now) cs.length with
            completed_companies := 0 + 0 } : SnapshotJob) =
            baseJob (initialJob job_id year month accs now) cs.length := rfl
        rw [hzero] at hchain
        exact hchain

/-- C3: if company-set resolution raises (the only statements inside the
`try` block that can raise in this embedding — a directory-service exception
or the explicit raise on a non-200 all-companies response — all occur before
any per-company processing), the job is finalized as `failed` with the
exception text in `error`, `success = False`, a completion timestamp, the
counters of the previously persisted state unchanged, and the function
returns `False`. -/
theorem uncaught_exception_fails_job (env : Env) (year month : Int)
    (accs : Option (List String)) (job_id now : String) (e : String)
    (hres : (resolveCompanies env accs).1 = .error e) :
    run_scheduled_snapshots env year month accs job_id now =
      ⟨[initialJob job_id year month accs now,
        failedJob (initialJob job_id year month accs now) e now],
       false, "Scheduler error: " ++ e, (resolveCompanies env accs).2, []⟩ ∧
    (failedJob (initialJob job_id year month accs now) e now).status = "failed" ∧
    (failedJob (initialJob job_id year month accs now) e now).success = some false ∧
    (failedJob (initialJob job_id year month accs now) e now).error = some e ∧
    (failedJob (initialJob job_id year month accs now) e now).completed_at = some now ∧
    (failedJob (initialJob job_id year month accs now) e now).total_companies =
      (initialJob job_id year month accs now).total_companies ∧
    (failedJob (initialJob job_id year month accs now) e now).completed_companies =
      (initialJob job_id year month accs now).completed_companies ∧
    (failedJob (initialJob job_id year month accs now) e now).failed_companies =
      (initialJob job_id year month accs now).failed_companies := by
  refine ⟨?_, rfl, rfl, rfl, rfl, rfl, rfl, rfl⟩
  simp only [run_scheduled_snapshots]
  rw [hres]

theorem countP_range_shift (p : Nat → Bool) (i n : Nat) :
    (List.range (n + 1)).countP (fun j => p (i + j)) =
      (if p i then 1 else 0) + (List.range n).countP (fun j => p (i + 1 + j)) := by
  rw [List.range_succ_eq_map, List.countP_cons, List.countP_map]
  have h1 : ((fun j => p (i + j)) ∘ Nat.succ) = fun j => p (i + 1 + j) := by
    funext j
    simp only [Function.comp_apply]
    congr 1
    omega
  rw [h1]
  simp [Nat.add_comm]

theorem loopGo_truthy (env : Env) (base : SnapshotJob) :
    ∀ (cs : List Company) (i s f : Nat),
      (∀ c ∈ cs, pyTruthyStr c.account_number = true) →
      (loopGo env base cs i s f).success_count =
        s + (List.range cs.length).countP (fun j => ledgerSuccess (env.ledger (i + j))) ∧
      (loopGo env base cs i s f).failed_count =
        f + (List.range cs.length).countP (fun j => !ledgerSuccess (env.ledger (i + j)))
  | [], i, s, f, _ => by simp [loopGo]
  | c :: rest, i, s, f, h => by
    have hc := h c (List.mem_cons_self c rest)
    have hrest : ∀ x ∈ rest, pyTruthyStr x.account_number = true :=
      fun x hx => h x (List.mem_cons_of_mem _ hx)
    rw [List.length_cons,
      countP_range_shift (fun n => ledgerSuccess (env.ledger n)) i rest.length,
      countP_range_shift (fun n => !ledgerSuccess (env.ledger n)) i rest.length]
    cases hls : ledgerSuccess (env.ledger i)
    · have ih := loopGo_truthy env base rest (i + 1) s (f + 1) hrest
      simp only [loopGo, hc, hls, if_true, if_false]
      try simp [hls]
      omega
    · have ih := loopGo_truthy env base rest (i + 1) (s + 1) f hrest
      simp only [loopGo, hc, hls, if_true, if_false]
      try simp [hls]
      omega

theorem beq_sub_zero_eq_beq (K N : Nat) (h : K ≤ N) :
    ((N - K == 0) : Bool) = (K == N) := by
  apply Bool.eq_iff_iff.mpr
  simp only [beq_iff_eq]
  omega

/-- C1 (amended: stated for a non-empty resolved company set; when the
resolved set is empty the code takes the early-return branch that completes
the job with `success = True` but writes no structured output): over N
resolved companies, all carrying an account identifier, with the billing
call succeeding (201 or 409) for exactly K of them, the finalized job is
`completed` with `total_companies = N`, `completed_companies = N`,
structured output `success_count = K`, `failed_count = N - K`, exactly
`N - K` error entries, `success = (K == N)`, and the returned boolean is
`(K == N)`. -/
theorem bulk_runner_counts (env : Env) (year month : Int)
    (accs : Option (List String)) (job_id now : String)
    (cs : List Company) (N K : Nat)
    (hres : (resolveCompanies env accs).1 = .ok cs)
    (hne : cs ≠ [])
    (htr : ∀ c ∈ cs, pyTruthyStr c.account_number = true)
    (hN : N = cs.length)
    (hK : K = (List.range N).countP (fun j => ledgerSuccess (env.ledger j))) :
    ∃ jf, (run_scheduled_snapshots env year month accs job_id now).commits.getLast? = some jf ∧
      jf.status = "completed" ∧
      jf.total_companies = N ∧
      jf.completed_companies = N ∧
      (∃ o, jf.output = some o ∧ o.success_count = K ∧ o.failed_count = N - K ∧
        o.errors.length = N - K) ∧
      jf.success = some (K == N) ∧
      (run_scheduled_snapshots env year month accs job_id now).ok = (K == N) := by
  have hemp : cs.isEmpty = false := by
    cases cs
    · exact absurd rfl hne
    · rfl
  have htru := loopGo_truthy env (baseJob (initialJob job_id year month accs now) cs.length)
    cs 0 0 0 htr
  have hKeq : (loopGo env (baseJob (initialJob job_id year month accs now) cs.length)
      cs 0 0 0).success_count = K := by
    rw [htru.1, hK, hN]
    rw [Nat.zero_add]
    apply List.countP_congr
    intro a _
    simp
  have hsum : (loopGo env (baseJob (initialJob job_id year month accs now) cs.length)
        cs 0 0 0).success_count +
      (loopGo env (baseJob (initialJob job_id year month accs now) cs.length)
        cs 0 0 0).failed_count = N := by
    rw [loopGo_counts]
    rw [List.countP_eq_length.mpr (by intro a ha; simp [htr a ha])]
    omega
  have hKle : K ≤ N := by omega
  have hFeq : (loopGo env (baseJob (initialJob job_id year month accs now) cs.length)
      cs 0 0 0).failed_count = N - K := by omega
  have herr : (loopGo env (baseJob (initialJob job_id year month accs now) cs.length)
      cs 0 0 0).errors.length = N - K := by
    have h0 := loopGo_errors_length env
      (baseJob (initialJob job_id year month accs now) cs.length) cs 0 0 0
    omega
  have hsucc : ((loopGo env (baseJob (initialJob job_id year month accs now) cs.length)
      cs 0 0 0).failed_count == 0) = (K == N) := by
    rw [hFeq]
    exact beq_sub_zero_eq_beq K N hKle
  by_cases hf : (loopGo env (baseJob (initialJob job_id year month accs now) cs.length)
      cs 0 0 0).failed_count > 0
  · have hrun : run_scheduled_snapshots env year month accs job_id now =
        ⟨[initialJob job_id year month accs now,
          baseJob (initialJob job_id year month accs now) cs.length] ++
           (loopGo env (baseJob (initialJob job_id year month accs now) cs.length)
             cs 0 0 0).commits ++
           [finalJob (baseJob (initialJob job_id year month accs now) cs.length)
             (loopGo env (baseJob (initialJob job_id year month accs now) cs.length)
               cs 0 0 0) now],
         false,
         "Completed with " ++
           toString (loopGo env (baseJob (initialJob job_id year month accs now) cs.length)
             cs 0 0 0).success_count ++ " successes, " ++
           toString (loopGo env (baseJob (initialJob job_id year month accs now) cs.length)
             cs 0 0 0).failed_count ++ " failures",
         (resolveCompanies env accs).2,
         (loopGo env (baseJob (initialJob job_id year month accs now) cs.length)
           cs 0 0 0).ledger_calls⟩ := by
      simp only [run_scheduled_snapshots]
      rw [hres]
      simp [hemp, hf]
    rw [hrun]
    refine ⟨_, List.getLast?_concat _, rfl, hN.symm, ?_, ⟨_, rfl, hKeq, hFeq, herr⟩, ?_, ?_⟩
    · exact hsum
    · show some ((loopGo env (baseJob (initialJob job_id year month accs now) cs.length)
        cs 0 0 0).failed_count == 0) = some (K == N)
      rw [hsucc]
    · show false = (K == N)
      have : K ≠ N := by omega
      simp [this]
  · have hrun : run_scheduled_snapshots env year month accs job_id now =
        ⟨[initialJob job_id year month accs now,
          baseJob (initialJob job_id year month accs now) cs.length] ++
           (loopGo env (baseJob (initialJob job_id year month accs now) cs.length)
             cs 0 0 0).commits ++
           [finalJob (baseJob (initialJob job_id year month accs now) cs.length)
             (loopGo env (baseJob (initialJob job_id year month accs now) cs.length)
               cs 0 0 0) now],
         true,
         "Successfully created " ++
           toString (loopGo env (baseJob (initialJob job_id year month accs now) cs.length)
             cs 0 0 0).success_count ++ " snapshots",
         (resolveCompanies env accs).2,
         (loopGo env (baseJob (initialJob job_id year month accs now) cs.length)
           cs 0 0 0).ledger_calls⟩ := by
      simp only [run_scheduled_snapshots]
      rw [hres]
      simp [hemp, hf]
    rw [hrun]
    refine ⟨_, List.getLast?_concat _, rfl, hN.symm, ?_, ⟨_, rfl, hKeq, hFeq, herr⟩, ?_, ?_⟩
    · exact hsum
    · show some ((loopGo env (baseJob (initialJob job_id year month accs now) cs.length)
        cs 0 0 0).failed_count == 0) = some (K == N)
      rw [hsucc]
    · show true = (K == N)
      have : K = N := by omega
      simp [this]

theorem run_nonempty_parts (env : Env) (year month : Int)
    (accs : Option (List String)) (job_id now : String) (cs : List Company)
    (hres : (resolveCompanies env accs).1 = .ok cs) (hemp : cs.isEmpty = false) :
    (run_scheduled_snapshots env year month accs job_id now).commits =
      [initialJob job_id year month accs now,
       baseJob (initialJob job_id year month accs now) cs.length] ++
        (loopGo env (baseJob (initialJob job_id year month accs now) cs.length)
          cs 0 0 0).commits ++
        [finalJob (baseJob (initialJob job_id year month accs now) cs.length)
          (loopGo env (baseJob (initialJob job_id year month accs now) cs.length)
            cs 0 0 0) now] ∧
    (run_scheduled_snapshots env year month accs job_id now).ledger_calls =
      (loopGo env (baseJob (initialJob job_id year month accs now) cs.length)
        cs 0 0 0).ledger_calls ∧
    (run_scheduled_snapshots env year month accs job_id now).codex_calls =
      (resolveCompanies env accs).2 := by
  by_cases hf : (loopGo env (baseJob (initialJob job_id year month accs now) cs.length)
      cs 0 0 0).failed_count > 0 <;>
    refine ⟨?_, ?_, ?_⟩ <;>
    (simp only [run_scheduled_snapshots]; rw [hres]; simp [hemp, hf])

theorem fetchEach_responses (env : Env) :
    ∀ l : List String,
      (∀ acc ∈ l, ∃ st c, env.codexCompany acc = .ok (st, c)) →
      fetchEach env l =
        (.ok (l.filterMap (fun acc =>
          match env.codexCompany acc with
          | .ok (status, body) => if status == 200 then some body else none
          | .error _ => none)),
         l.map (fun acc => "/api/company/" ++ acc))
  | [], _ => by simp [fetchEach]
  | acc :: rest, h => by
    obtain ⟨st, c, hacc⟩ := h acc (List.mem_cons_self _ _)
    have ih := fetchEach_responses env rest (fun x hx => h x (List.mem_cons_of_mem _ hx))
    simp only [fetchEach, hacc, ih, List.filterMap_cons, List.map_cons]
    by_cases hst : st == 200 <;> simp [hst]

theorem run_completes_of_ok (env : Env) (year month : Int)
    (accs : Option (List String)) (job_id now : String) (cs : List Company)
    (hres : (resolveCompanies env accs).1 = .ok cs) :
    ∃ jf, (run_scheduled_snapshots env year month accs job_id now).commits.getLast? = some jf ∧
      jf.status = "completed" := by
  by_cases hemp : cs.isEmpty
  · have hrun : (run_scheduled_snapshots env year month accs job_id now).commits =
        [initialJob job_id year month accs now,
         emptyJob (initialJob job_id year month accs now) now] := by
      simp only [run_scheduled_snapshots]
      rw [hres]
      simp [hemp]
    rw [hrun]
    exact ⟨_, rfl, rfl⟩
  · have hparts := run_nonempty_parts env year month accs job_id now cs hres
      (by simpa using hemp)
    rw [hparts.1]
    exact ⟨_, List.getLast?_concat _, rfl⟩

/-- C4: company-set resolution error handling.  With an explicit non-empty
account list whose directory lookups all return responses, each identifier is
fetched individually, the resolved set is exactly the bodies of the 200
responses (non-200 identifiers are silently dropped), and the job never
finalizes as `failed`; with no list, a single full-list fetch is made, and a
non-200 response finalizes the job as `failed` and makes the run return
`False`. -/
theorem company_resolution_error_handling (env : Env) (year month : Int)
    (job_id now : String) (l : List String)
    (hne : l ≠ [])
    (hresp : ∀ acc ∈ l, ∃ st c, env.codexCompany acc = .ok (st, c))
    (st : Nat) (csAll : List Company)
    (hall : env.codexAll = .ok (st, csAll)) (hst : st ≠ 200) :
    resolveCompanies env (some l) =
      (.ok (l.filterMap (fun acc =>
        match env.codexCompany acc with
        | .ok (status, body) => if status == 200 then some body else none
        | .error _ => none)),
       l.map (fun acc => "/api/company/" ++ acc)) ∧
    (∃ jf, (run_scheduled_snapshots env year month (some l) job_id now).commits.getLast? =
        some jf ∧ jf.status = "completed") ∧
    (resolveCompanies env none).2 = ["/api/companies"] ∧
    (∃ jf, (run_scheduled_snapshots env year month none job_id now).commits.getLast? =
        some jf ∧ jf.status = "failed") ∧
    (run_scheduled_snapshots env year month none job_id now).ok = false := by
  have htl : pyTruthyList (some l) = true := by simp [pyTruthyList, hne]
  have hres1 : resolveCompanies env (some l) =
      (.ok (l.filterMap (fun acc =>
        match env.codexCompany acc with
        | .ok (status, body) => if status == 200 then some body else none
        | .error _ => none)),
       l.map (fun acc => "/api/company/" ++ acc)) := by
    simp only [resolveCompanies, htl, if_true]
    exact fetchEach_responses env l hresp
  have hfa : fetchAll env =
      (.error ("Failed to fetch companies from Codex: " ++ toString st),
       ["/api/companies"]) := by
    simp only [fetchAll, hall]
    simp [hst]
  have hresN : resolveCompanies env none =
      (.error ("Failed to fetch companies from Codex: " ++ toString st),
       ["/api/companies"]) := by
    simp only [resolveCompanies, pyTruthyList, Bool.false_eq_true, if_false]
    exact hfa
  have hrunN : run_scheduled_snapshots env year month none job_id now =
      ⟨[initialJob job_id year month none now,
        failedJob (initialJob job_id year month none now)
          ("Failed to fetch companies from Codex: " ++ toString st) now],
       false,
       "Scheduler error: " ++ ("Failed to fetch companies from Codex: " ++ toString st),
       (resolveCompanies env none).2, []⟩ := by
    simp only [run_scheduled_snapshots]
    rw [show (resolveCompanies env none).1 =
      .error ("Failed to fetch companies from Codex: " ++ toString st) by rw [hresN]]
  refine ⟨hres1, ?_, ?_, ?_, ?_⟩
  · exact run_completes_of_ok env year month (some l) job_id now _
      (by rw [hres1])
  · rw [hresN]
  · rw [hrunN]
    exact ⟨_, rfl, rfl⟩
  · rw [hrunN]

/-- C10: a resolved company record without an account-number field is skipped
without a billing-service call and without touching the counters, while
`total_companies` still counts it: the billing calls are exactly those for the
companies with a (truthy) account number, the job still finalizes `completed`,
`completed_companies` equals the number of non-skipped companies and is
strictly below `total_companies`, and the structured output satisfies
`success_count + failed_count = completed_companies`. -/
theorem skipped_companies_not_processed (env : Env) (year month : Int)
    (accs : Option (List String)) (job_id now : String)
    (cs : List Company) (c0 : Company)
    (hres : (resolveCompanies env accs).1 = .ok cs)
    (hmem : c0 ∈ cs) (hc0 : c0.account_number = none) :
    (run_scheduled_snapshots env year month accs job_id now).ledger_calls =
      cs.filterMap (fun c =>
        if pyTruthyStr c.account_number then some (c.account_number.getD "") else none) ∧
    ∃ jf, (run_scheduled_snapshots env year month accs job_id now).commits.getLast? =
        some jf ∧
      jf.status = "completed" ∧
      jf.total_companies = cs.length ∧
      jf.completed_companies = cs.countP (fun c => pyTruthyStr c.account_number) ∧
      jf.completed_companies < jf.total_companies ∧
      ∃ o, jf.output = some o ∧
        o.success_count + o.failed_count = jf.completed_companies := by
  have hemp : cs.isEmpty = false := by
    cases cs
    · exact absurd hmem (List.not_mem_nil c0)
    · rfl
  have hparts := run_nonempty_parts env year month accs job_id now cs hres hemp
  have hcount : (loopGo env (baseJob (initialJob job_id year month accs now) cs.length)
        cs 0 0 0).success_count +
      (loopGo env (baseJob (initialJob job_id year month accs now) cs.length)
        cs 0 0 0).failed_count =
      cs.countP (fun c => pyTruthyStr c.account_number) := by
    rw [loopGo_counts]
    omega
  have hlt : cs.countP (fun c => pyTruthyStr c.account_number) < cs.length := by
    refine lt_of_le_of_ne (List.countP_le_length _) ?_
    intro heq
    have := List.countP_eq_length.mp heq c0 hmem
    rw [hc0] at this
    simp [pyTruthyStr] at this
  refine ⟨?_, ?_⟩
  · rw [hparts.2.1, loopGo_calls]
  · rw [hparts.1]
    refine ⟨_, List.getLast?_concat _, rfl, rfl, ?_, ?_, ⟨_, rfl, ?_⟩⟩
    · exact hcount
    · show (finalJob _ _ _).completed_companies < (finalJob _ _ _).total_companies
      rw [show (finalJob (baseJob (initialJob job_id year month accs now) cs.length)
          (loopGo env (baseJob (initialJob job_id year month accs now) cs.length)
            cs 0 0 0) now).completed_companies =
          cs.countP (fun c => pyTruthyStr c.account_number) from hcount]
      exact hlt
    · simp only [finalJob]

/-- Concrete directory and billing behaviour: three companies, billing
succeeds (201), is already archived (409), and fails (500) respectively. -/
def envW1 : Env :=
  { codexCompany := fun _ => .ok (404, ⟨none⟩)
    codexAll := .ok (200, [⟨some "a1"⟩, ⟨some "a2"⟩, ⟨some "a3"⟩])
    ledger := fun i =>
      if i == 0 then .resp 201 "Created"
      else if i == 1 then .resp 409 "Already archived"
      else .resp 500 "boom" }

theorem bulk_runner_counts_witness :
    ((resolveCompanies envW1 none).1 =
        .ok [⟨some "a1"⟩, ⟨some "a2"⟩, ⟨some "a3"⟩] ∧
      ([⟨some "a1"⟩, ⟨some "a2"⟩, ⟨some "a3"⟩] : List Company) ≠ [] ∧
      (∀ c ∈ ([⟨some "a1"⟩, ⟨some "a2"⟩, ⟨some "a3"⟩] : List Company),
        pyTruthyStr c.account_number = true) ∧
      3 = ([⟨some "a1"⟩, ⟨some "a2"⟩, ⟨some "a3"⟩] : List Company).length ∧
      2 = (List.range 3).countP (fun j => ledgerSuccess (envW1.ledger j))) ∧
    (∃ jf, (run_scheduled_snapshots envW1 2025 10 none "job-1" "t").commits.getLast? =
        some jf ∧
      jf.status = "completed" ∧
      jf.total_companies = 3 ∧
      jf.completed_companies = 3 ∧
      (∃ o, jf.output = some o ∧ o.success_count = 2 ∧ o.failed_count = 3 - 2 ∧
        o.errors.length = 3 - 2) ∧
      jf.success = some ((2 : Nat) == 3) ∧
      (run_scheduled_snapshots envW1 2025 10 none "job-1" "t").ok = ((2 : Nat) == 3)) :=
  ⟨⟨rfl, by decide, by decide, rfl, by decide⟩,
   bulk_runner_counts envW1 2025 10 none "job-1" "t"
     [⟨some "a1"⟩, ⟨some "a2"⟩, ⟨some "a3"⟩] 3 2
     rfl (by decide) (by decide) rfl (by decide)⟩

/-- A directory whose all-companies listing succeeds with an empty list. -/
def envEmptyAll : Env :=
  { codexCompany := fun _ => .ok (404, ⟨none⟩)
    codexAll := .ok (200, [])
    ledger := fun _ => .resp 201 "Created" }

/-- C1 counterexample: a run whose resolved company set contains N = 0
companies (vacuously each carrying an account identifier, with the billing
call succeeding for exactly K = 0 of them) finalizes through the
empty-company-set branch, whose persisted job has `output = none` — there is
no structured output with `success_count = 0` and `failed_count = 0` as the
claim requires for N = 0. -/
theorem bulk_runner_counts_counterexample :
    (resolveCompanies envEmptyAll none).1 = .ok [] ∧
    (run_scheduled_snapshots envEmptyAll 2025 10 none "job-1" "t").commits.getLast? =
      some (emptyJob (initialJob "job-1" 2025 10 none "t") "t") ∧
    (emptyJob (initialJob "job-1" 2025 10 none "t") "t").status = "completed" ∧
    (emptyJob (initialJob "job-1" 2025 10 none "t") "t").output = none ∧
    (run_scheduled_snapshots envEmptyAll 2025 10 none "job-1" "t").ok = true := by
  refine ⟨rfl, ?_, rfl, rfl, rfl⟩
  rfl

theorem job_lifecycle_invariant_witness :
    (∃ j0 rest,
      (run_scheduled_snapshots envW1 2025 10 none "job-1" "t").commits = j0 :: rest ∧
        j0.status = "running") ∧
    (∀ j ∈ (run_scheduled_snapshots envW1 2025 10 none "job-1" "t").commits.dropLast,
      j.status = "running") ∧
    (∃ jl,
      (run_scheduled_snapshots envW1 2025 10 none "job-1" "t").commits.getLast? = some jl ∧
        (jl.status = "completed" ∨ jl.status = "failed")) ∧
    List.Chain' jobStep (run_scheduled_snapshots envW1 2025 10 none "job-1" "t").commits :=
  job_lifecycle_invariant envW1 2025 10 none "job-1" "t"

/-- A directory whose all-companies listing returns HTTP 500. -/
def envW3 : Env :=
  { codexCompany := fun _ => .error "connection refused"
    codexAll := .ok (500, [])
    ledger := fun _ => .resp 201 "Created" }

theorem uncaught_exception_fails_job_witness :
    run_scheduled_snapshots envW3 2025 10 none "job-1" "t" =
      ⟨[initialJob "job-1" 2025 10 none "t",
        failedJob (initialJob "job-1" 2025 10 none "t")
          "Failed to fetch companies from Codex: 500" "t"],
       false, "Scheduler error: " ++ "Failed to fetch companies from Codex: 500",
       (resolveCompanies envW3 none).2, []⟩ :=
  (uncaught_exception_fails_job envW3 2025 10 none "job-1" "t"
    "Failed to fetch companies from Codex: 500" rfl).1

/-- A directory that recognizes account `a1`, returns 404 for every other
account, and whose all-companies listing returns HTTP 500. -/
def envW4 : Env :=
  { codexCompany := fun acc =>
      if acc == "a1" then .ok (200, ⟨some "a1"⟩) else .ok (404, ⟨none⟩)
    codexAll := .ok (500, [])
    ledger := fun _ => .resp 201 "Created" }

theorem company_resolution_error_handling_witness :
    resolveCompanies envW4 (some ["a1", "a2"]) =
      (.ok [⟨some "a1"⟩], ["/api/company/a1", "/api/company/a2"]) ∧
    (∃ jf, (run_scheduled_snapshots envW4 2025 10 (some ["a1", "a2"]) "job-1" "t").commits.getLast? =
        some jf ∧ jf.status = "completed") ∧
    (∃ jf, (run_scheduled_snapshots envW4 2025 10 none "job-1" "t").commits.getLast? =
        some jf ∧ jf.status = "failed") ∧
    (run_scheduled_snapshots envW4 2025 10 none "job-1" "t").ok = false := by
  have hresp : ∀ acc ∈ ["a1", "a2"], ∃ st c, envW4.codexCompany acc = .ok (st, c) := by
    intro acc hacc
    rcases List.mem_cons.mp hacc with h | h
    · subst h
      exact ⟨200, ⟨some "a1"⟩, rfl⟩
    · rcases List.mem_cons.mp h with h | h
      · subst h
        exact ⟨404, ⟨none⟩, rfl⟩
      · exact absurd h (List.not_mem_nil acc)
  have h := company_resolution_error_handling envW4 2025 10 "job-1" "t" ["a1", "a2"]
    (by decide) hresp 500 [] rfl (by decide)
  exact ⟨h.1, h.2.1, h.2.2.2.1, h.2.2.2.2⟩

/-- A directory listing with one company carrying an account number and one
lacking it; billing always succeeds. -/
def envW10 : Env :=
  { codexCompany := fun _ => .ok (404, ⟨none⟩)
    codexAll := .ok (200, [⟨some "a1"⟩, ⟨none⟩])
    ledger := fun _ => .resp 201 "Created" }

theorem skipped_companies_not_processed_witness :
    (run_scheduled_snapshots envW10 2025 10 none "job-1" "t").ledger_calls = ["a1"] ∧
    ∃ jf, (run_scheduled_snapshots envW10 2025 10 none "job-1" "t").commits.getLast? =
        some jf ∧
      jf.status = "completed" ∧
      jf.total_companies = ([⟨some "a1"⟩, ⟨none⟩] : List Company).length ∧
      jf.completed_companies =
        ([⟨some "a1"⟩, ⟨none⟩] : List Company).countP
          (fun c => pyTruthyStr c.account_number) ∧
      jf.completed_companies < jf.total_companies ∧
      ∃ o, jf.output = some o ∧
        o.success_count + o.failed_count = jf.completed_companies := by
  have h := skipped_companies_not_processed envW10 2025 10 none "job-1" "t"
    [⟨some "a1"⟩, ⟨none⟩] ⟨none⟩ rfl (by decide) rfl
  exact ⟨h.1, h.2⟩

/-! ## The snapshot store and the HTTP handlers of `app/routes.py` -/

/-- A JSON value, as parsed by `request.get_json()`.  The `billing_data_json`
column stores `json.dumps` of such a value and `get_snapshot` returns
`json.loads` of the column; since `json.loads` inverts `json.dumps` on values
produced by request parsing, the embedding keeps the parsed value in the
column and the dumps/loads round trip is the identity. -/
inductive Json where
  | null
  | bool (b : Bool)
  | num (q : Rat)
  | str (s : String)
  | arr (xs : List Json)
  | obj (fields : List (String × Json))

/-- The `billing_snapshots` row of `models.py` (class `BillingSnapshot`).
Numeric columns are embedded as rationals (`float(...)` in the handler is the
identity on the parsed JSON numbers in this model); nullable string columns
are `Option String`. -/
structure BillingSnapshot where
  id : Nat
  company_account_number : String
  company_name : String
  invoice_number : String
  billing_year : Int
  billing_month : Int
  invoice_date : Option String
  due_date : Option String
  archived_at : String
  billing_plan : Option String
  contract_term : Option String
  support_level : Option String
  total_amount : Rat
  total_user_charges : Rat
  total_asset_charges : Rat
  total_backup_charges : Rat
  total_ticket_charges : Rat
  total_line_item_charges : Rat
  user_count : Int
  asset_count : Int
  billable_hours : Rat
  billing_data_json : Json
  invoice_csv : String
  created_by : String
  notes : Option String

/-- The `snapshot_line_items` row of `models.py` (class `SnapshotLineItem`). -/
structure SnapshotLineItem where
  snapshot_id : Nat
  line_type : String
  item_name : String
  description : Option String
  quantity : Rat
  rate : Rat
  amount : Rat

/-- The persistent store of snapshots and line items.  Lists keep insertion
order (`query.first()` is the first match in insertion order); `next_id` is
the autoincrement primary key assigned by `db.session.flush()`. -/
structure Store where
  snapshots : List BillingSnapshot
  line_items : List SnapshotLineItem
  next_id : Nat

/-- One entry of the optional `line_items` array of the ingestion payload
(`routes.py` lines 146-157).  `item_name`, `rate` and `amount` are accessed
with `item[...]` and are required; the rest use `.get` with defaults. -/
structure LineItemPayload where
  line_type : Option String
  item_name : String
  description : Option String
  quantity : Option Rat
  rate : Rat
  amount : Rat

/-- The JSON body of `POST /api/snapshot`.  Each field is `some` exactly when
the key is present in the request dictionary. -/
structure IngestPayload where
  company_account_number : Option String
  company_name : Option String
  billing_year : Option Int
  billing_month : Option Int
  invoice_number : Option String
  invoice_date : Option String
  due_date : Option String
  billing_plan : Option String
  contract_term : Option String
  support_level : Option String
  total_amount : Option Rat
  total_user_charges : Option Rat
  total_asset_charges : Option Rat
  total_backup_charges : Option Rat
  total_ticket_charges : Option Rat
  total_line_item_charges : Option Rat
  user_count : Option Int
  asset_count : Option Int
  billable_hours : Option Rat
  billing_data_json : Option Json
  invoice_csv : Option String
  line_items : Option (List LineItemPayload)
  created_by : Option String
  notes : Option String

/-- `routes.py` lines 101-107: the required keys, in the order of the
`required` list, that are absent from the payload. -/
def missingFields (p : IngestPayload) : List String :=
  ([("company_account_number", p.company_account_number.isSome),
    ("billing_year", p.billing_year.isSome),
    ("billing_month", p.billing_month.isSome),
    ("invoice_number", p.invoice_number.isSome),
    ("total_amount", p.total_amount.isSome),
    ("billing_data_json", p.billing_data_json.isSome),
    ("invoice_csv", p.invoice_csv.isSome)] : List (String × Bool)).filterMap
    (fun nf => if nf.2 then none else some nf.1)

/-- The snapshot row built at `routes.py` lines 115-140.  The `getD` on the
required fields is unreachable when the missing-fields check has passed. -/
def snapshotRow (newId : Nat) (p : IngestPayload) (creator now : String) :
    BillingSnapshot :=
  { id := newId
    company_account_number := p.company_account_number.getD ""
    company_name := p.company_name.getD "Unknown"
    invoice_number := p.invoice_number.getD ""
    billing_year := p.billing_year.getD 0
    billing_month := p.billing_month.getD 0
    invoice_date := p.invoice_date
    due_date := p.due_date
    archived_at := now
    billing_plan := p.billing_plan
    contract_term := p.contract_term
    support_level := p.support_level
    total_amount := p.total_amount.getD 0
    total_user_charges := p.total_user_charges.getD 0
    total_asset_charges := p.total_asset_charges.getD 0
    total_backup_charges := p.total_backup_charges.getD 0
    total_ticket_charges := p.total_ticket_charges.getD 0
    total_line_item_charges := p.total_line_item_charges.getD 0
    user_count := p.user_count.getD 0
    asset_count := p.asset_count.getD 0
    billable_hours := p.billable_hours.getD 0
    billing_data_json := p.billing_data_json.getD .null
    invoice_csv := p.invoice_csv.getD ""
    created_by := p.created_by.getD creator
    notes := p.notes }

/-- A line-item row built at `routes.py` lines 148-156. -/
def lineItemRow (snapshotId : Nat) (it : LineItemPayload) : SnapshotLineItem :=
  { snapshot_id := snapshotId
    line_type := it.line_type.getD "custom"
    item_name := it.item_name
    description := it.description
    quantity := it.quantity.getD 1
    rate := it.rate
    amount := it.amount }

/-- Result of `POST /api/snapshot`: 400, 409 or 201 with the new row id and
invoice number.  (The 500 commit-failure branch is not modelled: commits
always succeed in this embedding.) -/
inductive CreateResult where
  | badRequest (msg : String)
  | conflict (msg : String)
  | created (snapshot_id : Nat) (invoice_number : String)

/-- `create_snapshot` of `app/routes.py` (lines 52-168).  `payload = none`
models a request with no JSON body.  `creator` is the fallback for
`created_by` (`g.user.get('email')` or `'api'`). -/
def create_snapshot (st : Store) (payload : Option IngestPayload)
    (creator now : String) : CreateResult × Store :=
  match payload with
  | none => (.badRequest "No data provided", st)
  | some p =>
    let missing := missingFields p
    if ¬ missing.isEmpty then
      (.badRequest ("Missing required fields: " ++ String.intercalate ", " missing), st)
    else
      let inv := p.invoice_number.getD ""
      match st.snapshots.find? (fun s => s.invoice_number == inv) with
      | some _ => (.conflict ("Snapshot already exists for invoice " ++ inv), st)
      | none =>
        let snap := snapshotRow st.next_id p creator now
        let items :=
          match p.line_items with
          | some its => its.map (lineItemRow st.next_id)
          | none => []
        (.created st.next_id inv,
         { snapshots := st.snapshots ++ [snap]
           line_items := st.line_items ++ items
           next_id := st.next_id + 1 })

/-- The response body of `GET /api/snapshot/{invoice_number}`
(`routes.py` lines 181-206). -/
structure SnapshotView where
  id : Nat
  company_account_number : String
  company_name : String
  invoice_number : String
  billing_year : Int
  billing_month : Int
  invoice_date : Option String
  due_date : Option String
  archived_at : String
  billing_plan : Option String
  contract_term : Option String
  support_level : Option String
  total_amount : Rat
  total_user_charges : Rat
  total_asset_charges : Rat
  total_backup_charges : Rat
  total_ticket_charges : Rat
  total_line_item_charges : Rat
  user_count : Int
  asset_count : Int
  billable_hours : Rat
  billing_data : Json
  created_by : String
  notes : Option String

/-- The field-for-field projection of a stored row into the response body;
`billing_data := json.loads(snapshot.billing_data_json)`. -/
def viewOf (s : BillingSnapshot) : SnapshotView :=
  { id := s.id
    company_account_number := s.company_account_number
    company_name := s.company_name
    invoice_number := s.invoice_number
    billing_year := s.billing_year
    billing_month := s.billing_month
    invoice_date := s.invoice_date
    due_date := s.due_date
    archived_at := s.archived_at
    billing_plan := s.billing_plan
    contract_term := s.contract_term
    support_level := s.support_level
    total_amount := s.total_amount
    total_user_charges := s.total_user_charges
    total_asset_charges := s.total_asset_charges
    total_backup_charges := s.total_backup_charges
    total_ticket_charges := s.total_ticket_charges
    total_line_item_charges := s.total_line_item_charges
    user_count := s.user_count
    asset_count := s.asset_count
    billable_hours := s.billable_hours
    billing_data := s.billing_data_json
    created_by := s.created_by
    notes := s.notes }

/-- `get_snapshot` of `app/routes.py` (lines 171-208): `none` is the 404
response, `some` the 200 body. -/
def get_snapshot (st : Store) (invoice_number : String) : Option SnapshotView :=
  (st.snapshots.find? (fun s => s.invoice_number == invoice_number)).map viewOf

/-- The query parameters of `GET /api/snapshots/search` (`routes.py` lines
236-271).  A field is `some` exactly when the query-string key is present
with a truthy (non-empty) value — `request.args.get(...)` returns `None` for
an absent key and the handler guards each filter with Python truthiness.
`limit` and `offset` carry the already-`int()`-parsed values. -/
structure SearchQuery where
  account_number : Option String
  year : Option Int
  month : Option Int
  from_date : Option String
  to_date : Option String
  limit : Option Nat
  offset : Option Nat

/-- The filter chain of `routes.py` lines 253-267: each present parameter
adds one conjunct; `from_date`/`to_date` compare `archived_at` as strings,
inclusively. -/
def matchesQuery (q : SearchQuery) (s : BillingSnapshot) : Bool :=
  (match q.account_number with
   | some a => s.company_account_number == a
   | none => true) &&
  (match q.year with
   | some y => s.billing_year == y
   | none => true) &&
  (match q.month with
   | some m => s.billing_month == m
   | none => true) &&
  (match q.from_date with
   | some d => decide (d ≤ s.archived_at)
   | none => true) &&
  (match q.to_date with
   | some d => decide (s.archived_at ≤ d)
   | none => true)

/-- Insert a row into a list that is ordered by `archived_at` descending. -/
def insertArchivedDesc (s : BillingSnapshot) :
    List BillingSnapshot → List BillingSnapshot
  | [] => [s]
  | t :: ts =>
    if decide (t.archived_at ≤ s.archived_at) then s :: t :: ts
    else t :: insertArchivedDesc s ts

/-- `ORDER BY archived_at DESC` (`routes.py` line 274), as an insertion sort
on the string column. -/
def orderByArchivedDesc : List BillingSnapshot → List BillingSnapshot
  | [] => []
  | s :: ss => insertArchivedDesc s (orderByArchivedDesc ss)

/-- One entry of the search result page (`routes.py` lines 283-295). -/
structure SearchItem where
  id : Nat
  company_account_number : String
  company_name : String
  invoice_number : String
  billing_year : Int
  billing_month : Int
  invoice_date : Option String
  archived_at : String
  total_amount : Rat
  user_count : Int
  asset_count : Int

def searchItemOf (s : BillingSnapshot) : SearchItem :=
  { id := s.id
    company_account_number := s.company_account_number
    company_name := s.company_name
    invoice_number := s.invoice_number
    billing_year := s.billing_year
    billing_month := s.billing_month
    invoice_date := s.invoice_date
    archived_at := s.archived_at
    total_amount := s.total_amount
    user_count := s.user_count
    asset_count := s.asset_count }

/-- The 200 body of `GET /api/snapshots/search` (`routes.py` lines 297-302). -/
structure SearchResponse where
  total : Nat
  limit : Nat
  offset : Nat
  results : List SearchItem

/-- `search_snapshots` of `app/routes.py` (lines 236-302):
`limit = min(int(args.get('limit', 100)), 1000)`, `offset = int(args.get('offset', 0))`,
`total = query.count()` of the filtered query, page = `LIMIT limit OFFSET offset`
of the filtered query ordered by `archived_at` descending. -/
def search_snapshots (st : Store) (q : SearchQuery) : SearchResponse :=
  let filtered := st.snapshots.filter (matchesQuery q)
  let limit := min (q.limit.getD 100) 1000
  let offset := q.offset.getD 0
  let ordered := orderByArchivedDesc filtered
  let total := filtered.length
  { total := total
    limit := limit
    offset := offset
    results := ((ordered.drop offset).take limit).map searchItemOf }

/-- The JSON body of `POST /api/snapshots/bulk/create`; a field is `some`
exactly when the key is present. -/
structure BulkBody where
  year : Option Int
  month : Option Int
  account_numbers : Option (List String)

/-- Result of `POST /api/snapshots/bulk/create`: 400 or 202 with the new
job identifier. -/
inductive BulkResult where
  | badRequest (msg : String)
  | accepted (message : String) (job_id : String)

/-- `create_bulk_snapshots` of `app/routes.py` (lines 338-380): validate that
`year` and `month` are present, create a `SnapshotJob` row with
`job_type = 'bulk'` and `status = 'running'`, commit it, and return 202 with
the job id immediately.  The handler performs no further work on the job:
nothing in the repository ever processes a `bulk` job, despite the comment
`processing happens async` on line 376. -/
def create_bulk_snapshots (jobs : List SnapshotJob) (body : Option BulkBody)
    (job_id user now : String) : BulkResult × List SnapshotJob :=
  match body with
  | none => (.badRequest "year and month are required", jobs)
  | some b =>
    match b.year, b.month with
    | some y, some m =>
      let job : SnapshotJob :=
        { id := job_id
          job_type := "bulk"
          status := "running"
          target_year := y
          target_month := m
          target_account_numbers :=
            if pyTruthyList b.account_numbers then b.account_numbers else none
          total_companies := 0
          completed_companies := 0
          failed_companies := 0
          started_at := some now
          completed_at := none
          output := none
          error := none
          success := none
          triggered_by := some user }
      (.accepted "Bulk snapshot job started" job_id, jobs ++ [job])
    | _, _ => (.badRequest "year and month are required", jobs)

/-- The `scheduled_snapshots` singleton row of `models.py`
(class `ScheduledSnapshot`). -/
structure ScheduledSnapshot where
  enabled : Bool
  day_of_month : Int
  hour : Int
  snapshot_previous_month : Bool
  snapshot_all_companies : Bool
  last_run_at : Option String
  last_run_status : Option String
  last_run_count : Int
  last_run_log : Option String
  created_at : String
  updated_at : Option String
deriving Repr, DecidableEq

/-- A fresh configuration row (`ScheduledSnapshot(created_at=...)`,
`routes.py` line 413) with the column defaults of `models.py`
(enabled True, day 1, hour 2, both scope flags True, count 0). -/
def newScheduledSnapshot (now : String) : ScheduledSnapshot :=
  { enabled := true
    day_of_month := 1
    hour := 2
    snapshot_previous_month := true
    snapshot_all_companies := true
    last_run_at := none
    last_run_status := none
    last_run_count := 0
    last_run_log := none
    created_at := now
    updated_at := none }

/-- The JSON body of `POST /api/scheduler/config`; a field is `some` exactly
when the key is present.  `day_of_month` and `hour` carry the
already-`int()`-coerced values. -/
structure ConfigBody where
  enabled : Option Bool
  day_of_month : Option Int
  hour : Option Int
  snapshot_previous_month : Option Bool
  snapshot_all_companies : Option Bool
deriving Repr, DecidableEq

/-- The POST branch of `scheduler_config` in `app/routes.py` (lines 408-434):
create a row with current timestamp if none exists, then overwrite exactly
the fields present in the request and set `updated_at`. -/
def scheduler_config_post (config : Option ScheduledSnapshot) (data : ConfigBody)
    (now : String) : ScheduledSnapshot :=
  let c0 :=
    match config with
    | some c => c
    | none => newScheduledSnapshot now
  let c1 :=
    match data.enabled with
    | some v => { c0 with enabled := v }
    | none => c0
  let c2 :=
    match data.day_of_month with
    | some v => { c1 with day_of_month := v }
    | none => c1
  let c3 :=
    match data.hour with
    | some v => { c2 with hour := v }
    | none => c2
  let c4 :=
    match data.snapshot_previous_month with
    | some v => { c3 with snapshot_previous_month := v }
    | none => c3
  let c5 :=
    match data.snapshot_all_companies with
    | some v => { c4 with snapshot_all_companies := v }
    | none => c4
  { c5 with updated_at := some now }

theorem length_insertArchivedDesc (s : BillingSnapshot) :
    ∀ l : List BillingSnapshot, (insertArchivedDesc s l).length = l.length + 1
  | [] => rfl
  | t :: ts => by
    rw [insertArchivedDesc]
    split
    · rfl
    · simp [length_insertArchivedDesc s ts]

theorem length_orderByArchivedDesc :
    ∀ l : List BillingSnapshot, (orderByArchivedDesc l).length = l.length
  | [] => rfl
  | s :: ss => by
    simp [orderByArchivedDesc, length_insertArchivedDesc,
      length_orderByArchivedDesc ss]

/-- C5 (amended: stated for payloads that pass the required-field validation,
because that validation runs before the duplicate check; a duplicate-invoice
payload missing a required field is answered 400, not 409, the store likewise
unchanged): submitting a payload whose invoice number equals that of a stored
snapshot yields the 409 conflict response and returns the store completely
unchanged — no snapshot or line-item row is added and existing rows are
untouched. -/
theorem duplicate_invoice_conflict (st : Store) (p : IngestPayload)
    (creator now : String) (s0 : BillingSnapshot)
    (hmiss : missingFields p = [])
    (hfound : st.snapshots.find? (fun s => s.invoice_number == p.invoice_number.getD "") =
      some s0) :
    create_snapshot st (some p) creator now =
      (.conflict ("Snapshot already exists for invoice " ++ p.invoice_number.getD ""), st) := by
  simp only [create_snapshot, hmiss, hfound]
  simp

/-- A fully concrete stored snapshot used by the C5 and C8 scenarios. -/
def snapC5 : BillingSnapshot :=
  { id := 1
    company_account_number := "620547"
    company_name := "Acme"
    invoice_number := "620547-202510"
    billing_year := 2025
    billing_month := 10
    invoice_date := some "2025-10-31"
    due_date := some "2025-11-30"
    archived_at := "2025-11-01T02:00:00"
    billing_plan := some "MSP Platinum"
    contract_term := some "1-Year"
    support_level := some "All Inclusive"
    total_amount := 2450
    total_user_charges := 1700
    total_asset_charges := 375
    total_backup_charges := 75
    total_ticket_charges := 300
    total_line_item_charges := 0
    user_count := 17
    asset_count := 26
    billable_hours := 3
    billing_data_json := .obj [("x", .num 1)]
    invoice_csv := "a,b"
    created_by := "api"
    notes := none }

def storeC5 : Store :=
  { snapshots := [snapC5]
    line_items := []
    next_id := 2 }

/-- A payload whose invoice number duplicates `snapC5` but which lacks the
required `invoice_csv` field. -/
def pC5 : IngestPayload :=
  { company_account_number := some "620547"
    company_name := some "Acme"
    billing_year := some 2025
    billing_month := some 10
    invoice_number := some "620547-202510"
    invoice_date := none
    due_date := none
    billing_plan := none
    contract_term := none
    support_level := none
    total_amount := some 2450
    total_user_charges := none
    total_asset_charges := none
    total_backup_charges := none
    total_ticket_charges := none
    total_line_item_charges := none
    user_count := none
    asset_count := none
    billable_hours := none
    billing_data_json := some (.obj [("x", .num 1)])
    invoice_csv := none
    line_items := none
    created_by := none
    notes := none }

/-- C5 counterexample: a request whose invoice identifier equals that of the
stored snapshot but which omits the required `invoice_csv` field is answered
with the 400 missing-fields response — not the 409 conflict the claim
asserts for every such request — because the required-field validation runs
before the duplicate check. -/
theorem duplicate_invoice_conflict_counterexample :
    pC5.invoice_number = some "620547-202510" ∧
    storeC5.snapshots.map (fun s => s.invoice_number) = ["620547-202510"] ∧
    (create_snapshot storeC5 (some pC5) "api" "t").1 =
      .badRequest "Missing required fields: invoice_csv" :=
  ⟨rfl, rfl, rfl⟩

/-- `pC5` with the required `invoice_csv` supplied: a well-formed duplicate. -/
def pC5Full : IngestPayload :=
  { pC5 with invoice_csv := some "a,b" }

theorem duplicate_invoice_conflict_witness :
    missingFields pC5Full = [] ∧
    storeC5.snapshots.find?
      (fun s => s.invoice_number == pC5Full.invoice_number.getD "") = some snapC5 ∧
    create_snapshot storeC5 (some pC5Full) "api" "t" =
      (.conflict ("Snapshot already exists for invoice " ++
        pC5Full.invoice_number.getD ""), storeC5) :=
  ⟨rfl, rfl, duplicate_invoice_conflict storeC5 pC5Full "api" "t" snapC5 rfl rfl⟩

/-- C6: a payload accepted with 201 (all required fields present, no stored
snapshot with the same invoice number) is retrievable afterwards by its
invoice number, and the retrieved body carries, field for field, the
submitted monetary totals, counts and hours, and a `billing_data` value equal
as a JSON value to the submitted `billing_data_json`. -/
theorem ingest_retrieve_round_trip (st : Store) (p : IngestPayload)
    (creator now : String)
    (hmiss : missingFields p = [])
    (hdup : st.snapshots.find?
      (fun s => s.invoice_number == p.invoice_number.getD "") = none) :
    (create_snapshot st (some p) creator now).1 =
      .created st.next_id (p.invoice_number.getD "") ∧
    ∃ v, get_snapshot (create_snapshot st (some p) creator now).2
        (p.invoice_number.getD "") = some v ∧
      (∀ x, p.total_amount = some x → v.total_amount = x) ∧
      (∀ x, p.total_user_charges = some x → v.total_user_charges = x) ∧
      (∀ x, p.total_asset_charges = some x → v.total_asset_charges = x) ∧
      (∀ x, p.total_backup_charges = some x → v.total_backup_charges = x) ∧
      (∀ x, p.total_ticket_charges = some x → v.total_ticket_charges = x) ∧
      (∀ x, p.total_line_item_charges = some x → v.total_line_item_charges = x) ∧
      (∀ x, p.user_count = some x → v.user_count = x) ∧
      (∀ x, p.asset_count = some x → v.asset_count = x) ∧
      (∀ x, p.billable_hours = some x → v.billable_hours = x) ∧
      (∀ j, p.billing_data_json = some j → v.billing_data = j) := by
  have hcr : create_snapshot st (some p) creator now =
      (.created st.next_id (p.invoice_number.getD ""),
       { snapshots := st.snapshots ++ [snapshotRow st.next_id p creator now]
         line_items := st.line_items ++
           (match p.line_items with
            | some its => its.map (lineItemRow st.next_id)
            | none => [])
         next_id := st.next_id + 1 }) := by
    simp only [create_snapshot, hmiss, hdup]
    simp
  rw [hcr]
  refine ⟨rfl, ?_⟩
  have hfind : (st.snapshots ++ [snapshotRow st.next_id p creator now]).find?
      (fun s => s.invoice_number == p.invoice_number.getD "") =
      some (snapshotRow st.next_id p creator now) := by
    rw [List.find?_append, hdup]
    simp [snapshotRow]
  refine ⟨viewOf (snapshotRow st.next_id p creator now), ?_, ?_, ?_, ?_, ?_, ?_, ?_,
    ?_, ?_, ?_, ?_⟩
  · show ((st.snapshots ++ [snapshotRow st.next_id p creator now]).find?
      (fun s => s.invoice_number == p.invoice_number.getD "")).map viewOf =
      some (viewOf (snapshotRow st.next_id p creator now))
    rw [hfind]
    rfl
  all_goals
    intro x hx
    simp [viewOf, snapshotRow, hx]

def storeEmpty : Store :=
  { snapshots := []
    line_items := []
    next_id := 1 }

theorem ingest_retrieve_round_trip_witness :
    missingFields pC5Full = [] ∧
    storeEmpty.snapshots.find?
      (fun s => s.invoice_number == pC5Full.invoice_number.getD "") = none ∧
    ((create_snapshot storeEmpty (some pC5Full) "api" "t").1 =
      .created storeEmpty.next_id (pC5Full.invoice_number.getD "") ∧
    ∃ v, get_snapshot (create_snapshot storeEmpty (some pC5Full) "api" "t").2
        (pC5Full.invoice_number.getD "") = some v ∧
      (∀ x, pC5Full.total_amount = some x → v.total_amount = x) ∧
      (∀ x, pC5Full.total_user_charges = some x → v.total_user_charges = x) ∧
      (∀ x, pC5Full.total_asset_charges = some x → v.total_asset_charges = x) ∧
      (∀ x, pC5Full.total_backup_charges = some x → v.total_backup_charges = x) ∧
      (∀ x, pC5Full.total_ticket_charges = some x → v.total_ticket_charges = x) ∧
      (∀ x, pC5Full.total_line_item_charges = some x → v.total_line_item_charges = x) ∧
      (∀ x, pC5Full.user_count = some x → v.user_count = x) ∧
      (∀ x, pC5Full.asset_count = some x → v.asset_count = x) ∧
      (∀ x, pC5Full.billable_hours = some x → v.billable_hours = x) ∧
      (∀ j, pC5Full.billing_data_json = some j → v.billing_data = j)) :=
  ⟨rfl, rfl, ingest_retrieve_round_trip storeEmpty pC5Full "api" "t" rfl rfl⟩

/-- C7: the complete observable effect of `POST /api/snapshots/bulk/create`
on a well-formed body: a job row with kind `bulk`, status `running`, the
target period and (here null) account list is appended and 202 with the job
identifier is returned immediately — and nothing else happens: the job it
leaves behind has no output, no completion timestamp and stays `running`,
because the handler (and the whole repository) contains no code that
processes a `bulk` job after the response. -/
theorem bulk_create_returns_running_job :
    create_bulk_snapshots [] (some ⟨some 2025, some 10, none⟩) "job-1" "admin" "t" =
      (.accepted "Bulk snapshot job started" "job-1",
       [{ id := "job-1"
          job_type := "bulk"
          status := "running"
          target_year := 2025
          target_month := 10
          target_account_numbers := none
          total_companies := 0
          completed_companies := 0
          failed_companies := 0
          started_at := some "t"
          completed_at := none
          output := none
          error := none
          success := none
          triggered_by := some "admin" }]) := rfl

/-- C8: the search handler clamps `limit` at 1000 (default 100 when absent),
reports `total` as the full unclamped count of matching rows, and returns an
empty result page whenever `offset` is at least that count. -/
theorem search_pagination_clamps (st : Store) (q : SearchQuery) :
    (∀ n, q.limit = some n → 1000 < n → (search_snapshots st q).limit = 1000) ∧
    (q.limit = none → (search_snapshots st q).limit = 100) ∧
    (search_snapshots st q).total = (st.snapshots.filter (matchesQuery q)).length ∧
    (∀ k, q.offset = some k →
      (st.snapshots.filter (matchesQuery q)).length ≤ k →
      (search_snapshots st q).results = []) := by
  refine ⟨?_, ?_, rfl, ?_⟩
  · intro n hn h
    simp [search_snapshots, hn, Nat.min_eq_right h.le]
  · intro hn
    simp [search_snapshots, hn]
  · intro k hk hlen
    have hdrop : (orderByArchivedDesc (st.snapshots.filter (matchesQuery q))).drop k = [] := by
      apply List.drop_eq_nil_of_le
      rw [length_orderByArchivedDesc]
      exact hlen
    simp [search_snapshots, hk, hdrop]

def qC8 : SearchQuery :=
  { account_number := none
    year := none
    month := none
    from_date := none
    to_date := none
    limit := some 2000
    offset := some 5 }

theorem search_pagination_clamps_witness :
    (search_snapshots storeC5 qC8).limit = 1000 ∧
    (search_snapshots storeC5 qC8).total =
      (storeC5.snapshots.filter (matchesQuery qC8)).length ∧
    (search_snapshots storeC5 qC8).results = [] := by
  have h := search_pagination_clamps storeC5 qC8
  exact ⟨h.1 2000 rfl (by decide), h.2.2.1, h.2.2.2 5 rfl (by decide)⟩

/-- C9 (amended: the handler additionally always sets `updated_at` to the
current time, so `updated_at` is the one absent field that does not retain
its prior value): for a POST against an existing row, each of the five
request-settable fields is overwritten exactly when present in the body and
retained otherwise, the last-run bookkeeping fields and `created_at` are
always retained, `updated_at` is always set to the current time; when no row
exists a row is created with the current creation timestamp (and the model
defaults) before the merge is applied. -/
theorem scheduler_config_partial_merge (c : ScheduledSnapshot) (d : ConfigBody)
    (now : String) :
    ((∀ v, d.enabled = some v →
        (scheduler_config_post (some c) d now).enabled = v) ∧
      (d.enabled = none →
        (scheduler_config_post (some c) d now).enabled = c.enabled)) ∧
    ((∀ v, d.day_of_month = some v →
        (scheduler_config_post (some c) d now).day_of_month = v) ∧
      (d.day_of_month = none →
        (scheduler_config_post (some c) d now).day_of_month = c.day_of_month)) ∧
    ((∀ v, d.hour = some v →
        (scheduler_config_post (some c) d now).hour = v) ∧
      (d.hour = none →
        (scheduler_config_post (some c) d now).hour = c.hour)) ∧
    ((∀ v, d.snapshot_previous_month = some v →
        (scheduler_config_post (some c) d now).snapshot_previous_month = v) ∧
      (d.snapshot_previous_month = none →
        (scheduler_config_post (some c) d now).snapshot_previous_month =
          c.snapshot_previous_month)) ∧
    ((∀ v, d.snapshot_all_companies = some v →
        (scheduler_config_post (some c) d now).snapshot_all_companies = v) ∧
      (d.snapshot_all_companies = none →
        (scheduler_config_post (some c) d now).snapshot_all_companies =
          c.snapshot_all_companies)) ∧
    (scheduler_config_post (some c) d now).last_run_at = c.last_run_at ∧
    (scheduler_config_post (some c) d now).last_run_status = c.last_run_status ∧
    (scheduler_config_post (some c) d now).last_run_count = c.last_run_count ∧
    (scheduler_config_post (some c) d now).last_run_log = c.last_run_log ∧
    (scheduler_config_post (some c) d now).created_at = c.created_at ∧
    (scheduler_config_post (some c) d now).updated_at = some now ∧
    (scheduler_config_post none d now).created_at = now := by
  rcases d with ⟨e, dm, hr, pm, ac⟩
  cases e <;> cases dm <;> cases hr <;> cases pm <;> cases ac <;>
    simp [scheduler_config_post, newScheduledSnapshot]

/-- C9 counterexample: a request containing only `enabled`, against an
existing row whose `updated_at` is NULL, changes `updated_at` (an absent
field) to the current time, so not every absent field retains its prior
value as the claim states. -/
theorem scheduler_config_partial_merge_counterexample :
    (newScheduledSnapshot "t0").updated_at = none ∧
    (scheduler_config_post (some (newScheduledSnapshot "t0"))
      ⟨some false, none, none, none, none⟩ "t1").updated_at = some "t1" :=
  ⟨rfl, rfl⟩

theorem scheduler_config_partial_merge_witness :
    (scheduler_config_post (some (newScheduledSnapshot "t0"))
      ⟨some false, none, none, none, none⟩ "t1").enabled = false ∧
    (scheduler_config_post (some (newScheduledSnapshot "t0"))
      ⟨some false, none, none, none, none⟩ "t1").day_of_month =
      (newScheduledSnapshot "t0").day_of_month ∧
    (scheduler_config_post (some (newScheduledSnapshot "t0"))
      ⟨some false, none, none, none, none⟩ "t1").hour =
      (newScheduledSnapshot "t0").hour ∧
    (scheduler_config_post (some (newScheduledSnapshot "t0"))
      ⟨some false, none, none, none, none⟩ "t1").snapshot_previous_month =
      (newScheduledSnapshot "t0").snapshot_previous_month ∧
    (scheduler_config_post (some (newScheduledSnapshot "t0"))
      ⟨some false, none, none, none, none⟩ "t1").snapshot_all_companies =
      (newScheduledSnapshot "t0").snapshot_all_companies ∧
    (scheduler_config_post none ⟨some false, none, none, none, none⟩ "t1").created_at =
      "t1" := by
  have h := scheduler_config_partial_merge (newScheduledSnapshot "t0")
    ⟨some false, none, none, none, none⟩ "t1"
  exact ⟨h.1.1 false rfl, h.2.1.2 rfl, h.2.2.1.2 rfl, h.2.2.2.1.2 rfl,
    h.2.2.2.2.1.2 rfl, h.2.2.2.2.2.2.2.2.2.2.2⟩

end Archive
